import Mathlib

/-!
Shallow embedding of `src/tools/fat/fat.c` (open-jinx FAT12 tool).

The backing disk image is a finite byte sequence: a length together with a
byte-valued function (accesses are masked to a byte with `% 256`, since the
C code only ever obtains bytes from `fread`).  All integer fields are `Nat`;
the `uint8_t` / `uint16_t` ranges of the C structs are reflected by the
little-endian decoders, which read 1, 2 or 4 bytes and therefore produce
values below `2^8`, `2^16`, `2^32` respectively.  The `uint8_t lba`
parameter of `ReadDiskSectors` is reflected by reducing the argument
`% 256`, exactly the implicit conversion C performs at the call boundary.
-/

namespace Fat12

/-- A byte-addressable, seekable resource (the disk image, or a loaded
buffer): `size` bytes, byte `i` being `data i` (masked to a byte on use). -/
structure ByteSeq where
  size : Nat
  data : Nat → Nat

/-- The byte stored at offset `i` (masked to `0..255`, as a file byte is). -/
def byteAt (b : ByteSeq) (i : Nat) : Nat :=
  b.data i % 256

/-- Little-endian value of the `len` bytes starting at offset `off`,
as the C struct overlay reads a `uint16_t` / `uint32_t` field. -/
def readLE (b : ByteSeq) (off : Nat) : Nat → Nat
  | 0 => 0
  | n + 1 => byteAt b off + 256 * readLE b (off + 1) n

/-- The `len` raw bytes starting at offset `off`, as a list. -/
def readBytes (b : ByteSeq) (off len : Nat) : List Nat :=
  (List.range len).map (fun k => byteAt b (off + k))

/-- The `BootSector` struct of fat.c: FAT12 header plus extended boot
record, packed (no implicit padding). -/
structure BootSector where
  bootJumpInstruction : List Nat
  oemIdentifier : List Nat
  bytesPerSector : Nat
  sectorsPerCluster : Nat
  reservedSectors : Nat
  fatCount : Nat
  dirEntryCount : Nat
  totalSectors : Nat
  mediaDescriptorType : Nat
  sectorsPerFat : Nat
  sectorsPerTrack : Nat
  heads : Nat
  hiddenSectors : Nat
  largeSectorCount : Nat
  driveNumber : Nat
  reservedByte : Nat
  signature : Nat
  volumeID : Nat
  volumeLabel : List Nat
  systemID : List Nat
  deriving DecidableEq, Repr

/-- `sizeof(BootSector)` for the packed struct: the sum of the field widths
3+8+2+1+2+1+2+2+1+2+2+2+4+4 (BPB) + 1+1+1+4+11+8 (EBR) = 62 bytes. -/
def bootSectorByteSize : Nat := 62

/-- `ReadBootSector`: `fread(&g_BootSector, sizeof(g_BootSector), 1, disk) > 0`.
`fread` with item size 62 and count 1 returns 1 exactly when 62 bytes are
available from the start of the image; the struct overlay then decodes each
field at its fixed packed offset, little-endian, with no validation. -/
def ReadBootSector (img : ByteSeq) : Option BootSector :=
  if bootSectorByteSize ≤ img.size then
    some
      { bootJumpInstruction := readBytes img 0 3
        oemIdentifier := readBytes img 3 8
        bytesPerSector := readLE img 11 2
        sectorsPerCluster := readLE img 13 1
        reservedSectors := readLE img 14 2
        fatCount := readLE img 16 1
        dirEntryCount := readLE img 17 2
        totalSectors := readLE img 19 2
        mediaDescriptorType := readLE img 21 1
        sectorsPerFat := readLE img 22 2
        sectorsPerTrack := readLE img 24 2
        heads := readLE img 26 2
        hiddenSectors := readLE img 28 4
        largeSectorCount := readLE img 32 4
        driveNumber := readLE img 36 1
        reservedByte := readLE img 37 1
        signature := readLE img 38 1
        volumeID := readLE img 39 4
        volumeLabel := readBytes img 43 11
        systemID := readBytes img 54 8 }
  else none

/-- The byte offset `fseek` receives in `ReadDiskSectors`:
`lba * g_BootSector.bytesPerSector`, where `lba` has already been truncated
to `uint8_t` at the call boundary. -/
def diskSeekOffset (bs : BootSector) (lba : Nat) : Nat :=
  (lba % 256) * bs.bytesPerSector

/-- The number of complete items `fread(ptr, size, nmemb, stream)` returns
when the stream has `img.size` bytes and its position is `pos`: zero when
the item size is zero, otherwise at most `nmemb` and at most the number of
whole items left before end-of-file. -/
def freadItems (img : ByteSeq) (pos size nmemb : Nat) : Nat :=
  if size = 0 then 0 else min nmemb ((img.size - pos) / size)

/-- `ReadDiskSectors(disk, uint8_t lba, uint32_t count, bufferOut)`:
seeks to `lba * bytesPerSector` (the `lba` argument truncates mod 256 —
the parameter is `uint8_t`; `fseek` with `SEEK_SET` on a regular file
succeeds for any non-negative offset) and then succeeds iff
`fread(bufferOut, bytesPerSector, count, disk) == count`, i.e. iff `count`
complete sectors are available there.  On success the destination holds
the `count * bytesPerSector` image bytes from the seek offset. -/
def ReadDiskSectors (img : ByteSeq) (bs : BootSector) (lba count : Nat) :
    Option ByteSeq :=
  if freadItems img (diskSeekOffset bs lba) bs.bytesPerSector count = count then
    some ⟨count * bs.bytesPerSector,
      fun i => byteAt img (diskSeekOffset bs lba + i)⟩
  else none

/-- `ReadFAT`: `malloc(sectorsPerFat * bytesPerSector)` then
`ReadDiskSectors(disk, reservedSectors, sectorsPerFat, g_Fat)`.
(`reservedSectors` is `uint16_t` and truncates to the `uint8_t` lba
parameter.) -/
def ReadFAT (img : ByteSeq) (bs : BootSector) : Option ByteSeq :=
  ReadDiskSectors img bs bs.reservedSectors bs.sectorsPerFat

/-- `lba = g_BootSector.reservedSectors + g_BootSector.sectorsPerFat *
g_BootSector.fatCount` in `ReadRootDirectory`. -/
def rootDirLba (bs : BootSector) : Nat :=
  bs.reservedSectors + bs.sectorsPerFat * bs.fatCount

/-- `size = sizeof(DirectoryEntry) * g_BootSector.dirEntryCount`
(`sizeof(DirectoryEntry)` for the packed struct is 32). -/
def rootDirSizeBytes (bs : BootSector) : Nat :=
  32 * bs.dirEntryCount

/-- `sectors = size / bytesPerSector; if (size % bytesPerSector > 0) sectors++;`
— ceiling division.  (With `bytesPerSector = 0` the C division is
undefined behaviour; no theorem below touches that case.) -/
def rootDirSectors (bs : BootSector) : Nat :=
  if rootDirSizeBytes bs % bs.bytesPerSector > 0 then
    rootDirSizeBytes bs / bs.bytesPerSector + 1
  else
    rootDirSizeBytes bs / bs.bytesPerSector

/-- `ReadRootDirectory`: `malloc(sectors * bytesPerSector)` then
`ReadDiskSectors(disk, lba, sectors, g_RootDirectory)` (`lba` is `uint32_t`
and truncates to the `uint8_t` parameter). -/
def ReadRootDirectory (img : ByteSeq) (bs : BootSector) : Option ByteSeq :=
  ReadDiskSectors img bs (rootDirLba bs) (rootDirSectors bs)

/-- The `DirectoryEntry` struct of fat.c: fixed 32-byte packed record. -/
structure DirectoryEntry where
  name : List Nat
  attributes : Nat
  reservedByte : Nat
  createdTimeTenths : Nat
  creationTime : Nat
  creationDate : Nat
  accessedDate : Nat
  firstClusterHigh : Nat
  modifiedTime : Nat
  modifiedDate : Nat
  firstClusterLow : Nat
  size : Nat
  deriving DecidableEq, Repr

/-- The 11-byte `name` field of `g_RootDirectory[i]`: bytes
`32*i .. 32*i+10` of the loaded root-directory buffer. -/
def entryName (buf : ByteSeq) (i : Nat) : List Nat :=
  readBytes buf (32 * i) 11

/-- The full record `g_RootDirectory[i]`, decoded at its packed offsets. -/
def decodeEntry (buf : ByteSeq) (i : Nat) : DirectoryEntry :=
  { name := entryName buf i
    attributes := readLE buf (32 * i + 11) 1
    reservedByte := readLE buf (32 * i + 12) 1
    createdTimeTenths := readLE buf (32 * i + 13) 1
    creationTime := readLE buf (32 * i + 14) 2
    creationDate := readLE buf (32 * i + 16) 2
    accessedDate := readLE buf (32 * i + 18) 2
    firstClusterHigh := readLE buf (32 * i + 20) 2
    modifiedTime := readLE buf (32 * i + 22) 2
    modifiedDate := readLE buf (32 * i + 24) 2
    firstClusterLow := readLE buf (32 * i + 26) 2
    size := readLE buf (32 * i + 28) 4 }

/-- The scan loop of `FindFile`: starting at index `i` with `fuel`
iterations left, return the first index whose 11-byte name field equals
the query (`memcmp(name, g_RootDirectory[i].name, 11) == 0`). -/
def findLoop (buf : ByteSeq) (q : List Nat) : Nat → Nat → Option Nat
  | _, 0 => none
  | i, fuel + 1 =>
    if entryName buf i = q then some i else findLoop buf q (i + 1) fuel

/-- The index `FindFile` stops at: the loop runs `i` from 0 while
`i < g_BootSector.dirEntryCount`. -/
def FindFileIdx (bs : BootSector) (buf : ByteSeq) (q : List Nat) :
    Option Nat :=
  findLoop buf q 0 bs.dirEntryCount

/-- `FindFile(name)`: returns `&g_RootDirectory[i]` for the first matching
index `i`, or `NULL`.  (The returned pointer is modelled by the decoded
record at that index.) -/
def FindFile (bs : BootSector) (buf : ByteSeq) (q : List Nat) :
    Option DirectoryEntry :=
  (FindFileIdx bs buf q).map (decodeEntry buf)

/-- The program's global mutable state: `g_BootSector`, `g_Fat`,
`g_RootDirectory` (the buffers are `NULL` ↦ `none` until loaded). -/
structure FatState where
  bootSector : BootSector
  fat : Option ByteSeq
  rootDirectory : Option ByteSeq

/-- C globals have static storage duration, so `g_BootSector` starts out
all zero. -/
def zeroBootSector : BootSector :=
  { bootJumpInstruction := List.replicate 3 0
    oemIdentifier := List.replicate 8 0
    bytesPerSector := 0
    sectorsPerCluster := 0
    reservedSectors := 0
    fatCount := 0
    dirEntryCount := 0
    totalSectors := 0
    mediaDescriptorType := 0
    sectorsPerFat := 0
    sectorsPerTrack := 0
    heads := 0
    hiddenSectors := 0
    largeSectorCount := 0
    driveNumber := 0
    reservedByte := 0
    signature := 0
    volumeID := 0
    volumeLabel := List.replicate 11 0
    systemID := List.replicate 8 0 }

/-- The state at program start: zeroed `g_BootSector`, `g_Fat = NULL`,
`g_RootDirectory = NULL`. -/
def initialState : FatState :=
  ⟨zeroBootSector, none, none⟩

/-- `ReadBootSector` as `main` uses it: on success `g_BootSector` is
overwritten with the decoded header. -/
def ReadBootSectorSt (img : ByteSeq) (st : FatState) : FatState × Bool :=
  match ReadBootSector img with
  | some bs => ({ st with bootSector := bs }, true)
  | none => (st, false)

/-- `ReadFAT` as `main` uses it: writes `g_Fat` (only a successfully
filled buffer is kept; a failed load's partial buffer is discarded by the
caller). -/
def ReadFATSt (img : ByteSeq) (st : FatState) : FatState × Bool :=
  match ReadFAT img st.bootSector with
  | some buf => ({ st with fat := some buf }, true)
  | none => ({ st with fat := none }, false)

/-- `ReadRootDirectory` as `main` uses it: writes `g_RootDirectory`. -/
def ReadRootDirectorySt (img : ByteSeq) (st : FatState) : FatState × Bool :=
  match ReadRootDirectory img st.bootSector with
  | some buf => ({ st with rootDirectory := some buf }, true)
  | none => ({ st with rootDirectory := none }, false)

/-- `FindFile` as `main` uses it: reads `g_BootSector` and
`g_RootDirectory`, writes nothing. -/
def FindFileSt (q : List Nat) (st : FatState) :
    FatState × Option DirectoryEntry :=
  match st.rootDirectory with
  | some buf => (st, FindFile st.bootSector buf q)
  | none => (st, none)

/-- The outcome of `main` after the argument/open glue: each constructor is
one of the exit paths (-2 boot-sector failure, -3 FAT failure, -4
root-directory failure, -5 lookup miss, 0 with the found entry). -/
inductive MainResult where
  | ok (e : DirectoryEntry)
  | bootSectorError
  | fatError
  | rootDirError
  | notFound
  deriving DecidableEq, Repr

/-- `main`'s pipeline: decode boot sector → load FAT → load root
directory → look the name up; the first failing stage aborts the rest. -/
def mainRun (img : ByteSeq) (q : List Nat) : MainResult :=
  match ReadBootSectorSt img initialState with
  | (_, false) => MainResult.bootSectorError
  | (st1, true) =>
    match ReadFATSt img st1 with
    | (_, false) => MainResult.fatError
    | (st2, true) =>
      match ReadRootDirectorySt img st2 with
      | (_, false) => MainResult.rootDirError
      | (st3, true) =>
        match (FindFileSt q st3).2 with
        | none => MainResult.notFound
        | some e => MainResult.ok e

/-- The four stages of `main`'s pipeline. -/
inductive Stage where
  | boot
  | fat
  | rootDir
  | lookup
  deriving DecidableEq, Repr

/-- The stages `main` actually executes on a given input, in order: the
same control flow as `mainRun`, recording each stage that runs. -/
def mainStages (img : ByteSeq) (_q : List Nat) : List Stage :=
  match ReadBootSectorSt img initialState with
  | (_, false) => [Stage.boot]
  | (st1, true) =>
    match ReadFATSt img st1 with
    | (_, false) => [Stage.boot, Stage.fat]
    | (st2, true) =>
      match ReadRootDirectorySt img st2 with
      | (_, false) => [Stage.boot, Stage.fat, Stage.rootDir]
      | (_, true) => [Stage.boot, Stage.fat, Stage.rootDir, Stage.lookup]

/-! Concrete fixtures used by the end-to-end theorem, the counterexamples
and the witnesses. -/

/-- The query `"FILE    TXT"` as its 11 raw bytes. -/
def fileTxtName : List Nat :=
  [70, 73, 76, 69, 32, 32, 32, 32, 84, 88, 84]

/-- The query `"NOFILE  TXT"` as its 11 raw bytes. -/
def noFileName : List Nat :=
  [78, 79, 70, 73, 76, 69, 32, 32, 84, 88, 84]

/-- A synthetic 1.44MB FAT12 image (2880 sectors of 512 bytes): boot
sector with `bytesPerSector = 512` (bytes 11..12 = 00 02),
`reservedSectors = 1` (byte 14), `fatCount = 2` (byte 16),
`dirEntryCount = 224` (byte 17), `sectorsPerFat = 9` (byte 22); the root
directory starts at sector 19 (byte offset 9728) and its first entry is
named `"FILE    TXT"` with `size = 4096` (16 at byte 9757, the second
byte of the little-endian size field); everything else is zero. -/
def testImage : ByteSeq :=
  ⟨1474560, fun i =>
    if i = 12 then 2
    else if i = 14 then 1
    else if i = 16 then 2
    else if i = 17 then 224
    else if i = 22 then 9
    else if i = 9728 then 70
    else if i = 9729 then 73
    else if i = 9730 then 76
    else if i = 9731 then 69
    else if i = 9736 then 84
    else if i = 9737 then 88
    else if i = 9738 then 84
    else if 9732 ≤ i ∧ i ≤ 9735 then 32
    else if i = 9757 then 16
    else 0⟩

/-- The boot sector `testImage` decodes to. -/
def testBootSector : BootSector :=
  { zeroBootSector with
    bytesPerSector := 512
    reservedSectors := 1
    fatCount := 2
    dirEntryCount := 224
    sectorsPerFat := 9 }

/-- The directory entry the end-to-end lookup finds in `testImage`. -/
def fileEntry : DirectoryEntry :=
  { name := fileTxtName
    attributes := 0
    reservedByte := 0
    createdTimeTenths := 0
    creationTime := 0
    creationDate := 0
    accessedDate := 0
    firstClusterHigh := 0
    modifiedTime := 0
    modifiedDate := 0
    firstClusterLow := 0
    size := 4096 }

/-- An image with distinct marker bytes at offset 0 (value 7) and offset
131072 = 256 * 512 (value 9), to tell apart a read that starts at sector
256 from one that starts at sector 0. -/
def farMarkImage : ByteSeq :=
  ⟨200000, fun i => if i = 0 then 7 else if i = 131072 then 9 else 0⟩

/-- A boot sector whose root directory should start at LBA 256
(`reservedSectors = 256`, no FATs), with one directory entry. -/
def bsRoot256 : BootSector :=
  { zeroBootSector with
    bytesPerSector := 512
    reservedSectors := 256
    dirEntryCount := 1 }

/-- A plain 512-byte-sector geometry. -/
def bs512 : BootSector :=
  { zeroBootSector with bytesPerSector := 512 }

/-- One-byte sectors with the FAT at LBA 256 (`reservedSectors = 256`,
one sector of FAT). -/
def bsFat256 : BootSector :=
  { zeroBootSector with
    bytesPerSector := 1
    reservedSectors := 256
    sectorsPerFat := 1 }

/-- An image with marker bytes at offsets 0 (value 7) and 256 (value 9),
for the one-byte-sector geometry `bsFat256`. -/
def nearMarkImage : ByteSeq :=
  ⟨300, fun i => if i = 0 then 7 else if i = 256 then 9 else 0⟩

/-- A 100-byte image whose boot sector decodes to `bytesPerSector = 1`,
`reservedSectors = 256` (bytes 14..15 = 00 01), `sectorsPerFat = 1`:
fewer than `sectorsPerFat * bytesPerSector` bytes remain after the
reserved region, yet the truncated lba makes the FAT read start at
offset 0 and succeed. -/
def truncImage256 : ByteSeq :=
  ⟨100, fun i => if i = 11 then 1 else if i = 15 then 1
   else if i = 22 then 1 else 0⟩

/-- A 100-byte image whose boot sector decodes to `bytesPerSector = 1`,
`reservedSectors = 1`, `sectorsPerFat = 200`: genuinely truncated (99
bytes after the reserved sector, 200 needed). -/
def truncImageSmall : ByteSeq :=
  ⟨100, fun i => if i = 11 then 1 else if i = 14 then 1
   else if i = 22 then 200 else 0⟩

/-- A 32-byte all-zero root-directory buffer (one zeroed entry). -/
def zeroBuf32 : ByteSeq :=
  ⟨32, fun _ => 0⟩

/-- A geometry with a single root-directory entry. -/
def bsOneEntry : BootSector :=
  { zeroBootSector with dirEntryCount := 1 }

/-- A 62-byte all-zero image: the packed boot-sector struct exactly, every
field zero. -/
def zero62 : ByteSeq :=
  ⟨62, fun _ => 0⟩

/-- 512-byte sectors with the standard 224-entry root directory. -/
def bs224 : BootSector :=
  { zeroBootSector with bytesPerSector := 512, dirEntryCount := 224 }

/-- 512-byte sectors with a 225-entry root directory (forces round-up). -/
def bs225 : BootSector :=
  { zeroBootSector with bytesPerSector := 512, dirEntryCount := 225 }

/-- A tiny geometry: one-byte sectors, one root-directory entry, no
reserved sectors and no FATs (the root directory is at offset 0). -/
def bsTiny : BootSector :=
  { zeroBootSector with bytesPerSector := 1, dirEntryCount := 1 }

/-- The root-directory buffer `bsTiny` loads from `zeroBuf32`. -/
def rootBufTiny : ByteSeq :=
  ⟨32, fun i => byteAt zeroBuf32 (diskSeekOffset bsTiny (rootDirLba bsTiny) + i)⟩

/-- The boot sector `truncImageSmall` decodes to. -/
def bsTruncSmall : BootSector :=
  { zeroBootSector with
    bytesPerSector := 1
    reservedSectors := 1
    sectorsPerFat := 200 }

/-! Helper lemmas about the scan loop, the sector reader and the
root-directory sector arithmetic. -/

/-- The scan loop returns `some j` exactly for the first matching index in
its window. -/
lemma findLoop_eq_some_iff (buf : ByteSeq) (q : List Nat) :
    ∀ (fuel i j : Nat),
      findLoop buf q i fuel = some j ↔
        i ≤ j ∧ j < i + fuel ∧ entryName buf j = q ∧
          ∀ k, i ≤ k → k < j → entryName buf k ≠ q := by
  intro fuel
  induction fuel with
  | zero =>
    intro i j
    constructor
    · intro h
      simp [findLoop] at h
    · rintro ⟨h1, h2, -, -⟩
      exact absurd h2 (by omega)
  | succ fuel ih =>
    intro i j
    simp only [findLoop]
    by_cases h : entryName buf i = q
    · rw [if_pos h]
      constructor
      · intro hs
        injection hs with hs
        subst hs
        exact ⟨Nat.le_refl i, by omega, h, fun k hk1 hk2 => absurd hk1 (by omega)⟩
      · rintro ⟨h1, h2, h3, h4⟩
        have hij : i = j := by
          by_contra hne
          exact h4 i (Nat.le_refl i) (by omega) h
        rw [hij]
    · rw [if_neg h]
      rw [ih (i + 1) j]
      constructor
      · rintro ⟨h1, h2, h3, h4⟩
        refine ⟨by omega, by omega, h3, fun k hk1 hk2 => ?_⟩
        rcases Nat.eq_or_lt_of_le hk1 with he | hl
        · intro hq2
          rw [← he] at hq2
          exact h hq2
        · exact h4 k (by omega) hk2
      · rintro ⟨h1, h2, h3, h4⟩
        have hne : i ≠ j := by
          intro he
          rw [he] at h
          exact h h3
        exact ⟨by omega, by omega, h3, fun k hk1 hk2 => h4 k (by omega) hk2⟩

/-- The scan loop returns `none` exactly when no index of its window
matches. -/
lemma findLoop_eq_none_iff (buf : ByteSeq) (q : List Nat) :
    ∀ (fuel i : Nat),
      findLoop buf q i fuel = none ↔
        ∀ j, i ≤ j → j < i + fuel → entryName buf j ≠ q := by
  intro fuel
  induction fuel with
  | zero =>
    intro i
    simp only [findLoop, true_iff]
    intro j h1 h2
    exact absurd h2 (by omega)
  | succ fuel ih =>
    intro i
    simp only [findLoop]
    by_cases h : entryName buf i = q
    · rw [if_pos h]
      constructor
      · intro hs
        exact absurd hs (by simp)
      · intro hall
        exact absurd h (hall i (Nat.le_refl i) (by omega))
    · rw [if_neg h]
      rw [ih (i + 1)]
      constructor
      · intro hall j h1 h2
        rcases Nat.eq_or_lt_of_le h1 with he | hl
        · rw [← he]
          exact h
        · exact hall j (by omega) (by omega)
      · intro hall j h1 h2
        exact hall j (by omega) (by omega)

/-- A successful `ReadDiskSectors` fills a `count * bytesPerSector`-byte
buffer with the image bytes from the seek offset on. -/
lemma readDiskSectors_eq_some {img : ByteSeq} {bs : BootSector}
    {lba count : Nat} {buf : ByteSeq}
    (h : ReadDiskSectors img bs lba count = some buf) :
    buf.size = count * bs.bytesPerSector ∧
      ∀ i, buf.data i = byteAt img (diskSeekOffset bs lba + i) := by
  unfold ReadDiskSectors at h
  split at h
  · injection h with h2
    rw [← h2]
    exact ⟨rfl, fun i => rfl⟩
  · exact absurd h (by simp)

/-- With a positive sector size and a positive sector count,
`ReadDiskSectors` succeeds iff the image holds `count` whole sectors from
the seek offset on. -/
lemma readDiskSectors_isSome_iff {img : ByteSeq} {bs : BootSector}
    {lba count : Nat} (hb : 0 < bs.bytesPerSector) (hc : 0 < count) :
    (ReadDiskSectors img bs lba count).isSome = true ↔
      diskSeekOffset bs lba + count * bs.bytesPerSector ≤ img.size := by
  have hbne : bs.bytesPerSector ≠ 0 := by omega
  have hA : 0 < count * bs.bytesPerSector := Nat.mul_pos hc hb
  have hdiv : count ≤ (img.size - diskSeekOffset bs lba) / bs.bytesPerSector ↔
      count * bs.bytesPerSector ≤ img.size - diskSeekOffset bs lba :=
    Nat.le_div_iff_mul_le hb
  unfold ReadDiskSectors freadItems
  rw [if_neg hbne]
  split_ifs with h
  · simp only [Option.isSome_some, true_iff]
    have h1 : count ≤ (img.size - diskSeekOffset bs lba) / bs.bytesPerSector := by
      omega
    have h2 := hdiv.mp h1
    omega
  · simp only [Option.isSome_none, Bool.false_eq_true, false_iff]
    intro hle
    have h2 : count * bs.bytesPerSector ≤ img.size - diskSeekOffset bs lba := by
      omega
    have h1 := hdiv.mpr h2
    omega

/-- `ReadDiskSectors` succeeds whenever the image holds `count` whole
sectors from the seek offset on (any `count`, including zero). -/
lemma readDiskSectors_isSome_of {img : ByteSeq} {bs : BootSector}
    {lba count : Nat} (hb : 0 < bs.bytesPerSector)
    (h : diskSeekOffset bs lba + count * bs.bytesPerSector ≤ img.size) :
    (ReadDiskSectors img bs lba count).isSome = true := by
  have hbne : bs.bytesPerSector ≠ 0 := by omega
  have h2 : count * bs.bytesPerSector ≤ img.size - diskSeekOffset bs lba := by
    omega
  have h1 := (Nat.le_div_iff_mul_le hb).mpr h2
  unfold ReadDiskSectors freadItems
  rw [if_neg hbne]
  rw [if_pos (by omega)]
  rfl

/-- The root-directory byte size never exceeds the allocated
`sectors * bytesPerSector` bytes (ceiling division rounds up). -/
lemma rootDirSizeBytes_le (bs : BootSector) (hb : 0 < bs.bytesPerSector) :
    rootDirSizeBytes bs ≤ rootDirSectors bs * bs.bytesPerSector := by
  have hdm := Nat.div_add_mod (rootDirSizeBytes bs) bs.bytesPerSector
  have hml : rootDirSizeBytes bs % bs.bytesPerSector < bs.bytesPerSector :=
    Nat.mod_lt _ hb
  unfold rootDirSectors
  split_ifs with h
  · calc rootDirSizeBytes bs
        = bs.bytesPerSector * (rootDirSizeBytes bs / bs.bytesPerSector) +
            rootDirSizeBytes bs % bs.bytesPerSector := hdm.symm
      _ ≤ bs.bytesPerSector * (rootDirSizeBytes bs / bs.bytesPerSector) +
            bs.bytesPerSector := by omega
      _ = (rootDirSizeBytes bs / bs.bytesPerSector + 1) * bs.bytesPerSector := by
          ring
  · have h0 : rootDirSizeBytes bs % bs.bytesPerSector = 0 := by omega
    apply le_of_eq
    calc rootDirSizeBytes bs
        = bs.bytesPerSector * (rootDirSizeBytes bs / bs.bytesPerSector) +
            rootDirSizeBytes bs % bs.bytesPerSector := hdm.symm
      _ = rootDirSizeBytes bs / bs.bytesPerSector * bs.bytesPerSector := by
          rw [h0]; ring

/-- The computed sector count is the least one whose sectors cover the
root-directory bytes. -/
lemma rootDirSectors_min (bs : BootSector) (hb : 0 < bs.bytesPerSector)
    (s : Nat) (hs : rootDirSizeBytes bs ≤ s * bs.bytesPerSector) :
    rootDirSectors bs ≤ s := by
  unfold rootDirSectors
  split_ifs with h
  · have hne : rootDirSizeBytes bs ≠ s * bs.bytesPerSector := by
      intro he
      rw [he, Nat.mul_mod_left] at h
      omega
    have hlt : rootDirSizeBytes bs < s * bs.bytesPerSector := by omega
    have hq := (Nat.div_lt_iff_lt_mul hb).mpr hlt
    omega
  · have h1 : rootDirSizeBytes bs / bs.bytesPerSector ≤
        s * bs.bytesPerSector / bs.bytesPerSector := Nat.div_le_div_right hs
    rw [Nat.mul_div_cancel s hb] at h1
    exact h1

/-! The claims. -/

/-- Claim C3: lookup contract.  For every root-directory buffer and every
query, `FindFile` returns the entry at the smallest index below
`dirEntryCount` whose 11-byte name field equals the query byte-for-byte
(first match wins on duplicates), and returns `NotFound` (`none`) exactly
when no index below `dirEntryCount` matches — the scan covers the full
capacity, with no early stop at a `0x00` first name byte and no skipping
of `0xE5` entries, since the characterisation mentions nothing but the
raw 11-byte comparison. -/
theorem claim_C3_lookup_first_match :
    ∀ (bs : BootSector) (buf : ByteSeq) (q : List Nat),
      (∀ i, FindFileIdx bs buf q = some i ↔
        i < bs.dirEntryCount ∧ entryName buf i = q ∧
          ∀ j, j < i → entryName buf j ≠ q) ∧
      (FindFileIdx bs buf q = none ↔
        ∀ i, i < bs.dirEntryCount → entryName buf i ≠ q) ∧
      FindFile bs buf q = (FindFileIdx bs buf q).map (decodeEntry buf) := by
  intro bs buf q
  refine ⟨fun i => ?_, ?_, rfl⟩
  · unfold FindFileIdx
    rw [findLoop_eq_some_iff]
    constructor
    · rintro ⟨-, h2, h3, h4⟩
      exact ⟨by omega, h3, fun j hj => h4 j (by omega) hj⟩
    · rintro ⟨h1, h2, h3⟩
      exact ⟨by omega, by omega, h2, fun k _ hk => h3 k hk⟩
  · unfold FindFileIdx
    rw [findLoop_eq_none_iff]
    constructor
    · intro h i hi
      exact h i (by omega) (by omega)
    · intro h j _ hj
      exact h j (by omega)

/-- Witness for C3 at a concrete directory: in the one-entry zeroed
buffer, the all-zero query matches at index 0. -/
theorem claim_C3_witness :
    FindFileIdx bsOneEntry zeroBuf32 (List.replicate 11 0) = some 0 :=
  ((claim_C3_lookup_first_match bsOneEntry zeroBuf32
    (List.replicate 11 0)).1 0).mpr (by decide)

/-- Counterexample to claim C5 as stated: in a root directory whose
entries are all zero bytes, the 11-byte query of all zero bytes does NOT
get `NotFound` — it matches entry 0's (all-zero) name field, because the
scan is a raw `memcmp` with no special case for the `0x00` end marker. -/
theorem claim_C5_counterexample :
    (∀ k, k < 32 * bsOneEntry.dirEntryCount → zeroBuf32.data k = 0) ∧
    FindFile bsOneEntry zeroBuf32 (List.replicate 11 0) =
      some (decodeEntry zeroBuf32 0) := by decide

/-- Claim C5 (amended): for every loaded root directory whose
`dirEntryCount` entries are entirely zero bytes, `FindFile` returns
`NotFound` for every 11-byte query other than the all-zero one (which
matches the zeroed name fields byte-for-byte). -/
theorem claim_C5_zeroed_directory :
    ∀ (bs : BootSector) (buf : ByteSeq) (q : List Nat),
      (∀ k, k < 32 * bs.dirEntryCount → buf.data k = 0) →
      q ≠ List.replicate 11 0 →
      FindFile bs buf q = none := by
  intro bs buf q hz hq
  have hname : ∀ i, i < bs.dirEntryCount →
      entryName buf i = List.replicate 11 0 := by
    intro i hi
    unfold entryName readBytes
    rw [List.eq_replicate_iff]
    constructor
    · simp
    · intro b hb
      rcases List.mem_map.mp hb with ⟨k, hk, rfl⟩
      have hk11 : k < 11 := List.mem_range.mp hk
      unfold byteAt
      rw [hz (32 * i + k) (by omega)]
  have hnone : FindFileIdx bs buf q = none := by
    unfold FindFileIdx
    rw [findLoop_eq_none_iff]
    intro j h1 h2
    rw [hname j (by omega)]
    intro he
    exact hq he.symm
  unfold FindFile
  rw [hnone]
  rfl

/-- Witness for C5 (amended) at a concrete input: the zeroed one-entry
directory and the query `"FILE    TXT"`. -/
theorem claim_C5_witness :
    FindFile bsOneEntry zeroBuf32 fileTxtName = none :=
  claim_C5_zeroed_directory bsOneEntry zeroBuf32 fileTxtName
    (by decide) (by decide)

/-- Claim C9: boot-sector immutability.  In the stateful model of the C
globals, loading the FAT and loading the root directory write only their
own buffer fields and leave `g_BootSector` untouched, and `FindFile`
leaves the whole state untouched: after a successful decode the boot
sector is only read. -/
theorem claim_C9_boot_sector_immutable :
    ∀ (img : ByteSeq) (st : FatState) (q : List Nat),
      (ReadFATSt img st).1.bootSector = st.bootSector ∧
      (ReadRootDirectorySt img st).1.bootSector = st.bootSector ∧
      (FindFileSt q st).1 = st := by
  intro img st q
  refine ⟨?_, ?_, ?_⟩
  · rcases hm : ReadFAT img st.bootSector with _ | buf <;>
      simp [ReadFATSt, hm]
  · rcases hm : ReadRootDirectory img st.bootSector with _ | buf <;>
      simp [ReadRootDirectorySt, hm]
  · rcases hm : st.rootDirectory with _ | buf <;>
      simp [FindFileSt, hm]

/-- Claim C10: lookup stays within the loaded buffer.  With a positive
sector size, a successful root-directory load allocates
`sectors * bytesPerSector` bytes, enough that every 32-byte entry record
with index below `dirEntryCount` lies entirely inside the buffer; and
with `dirEntryCount = 0` the scan reads nothing and returns `NotFound`. -/
theorem claim_C10_lookup_within_buffer :
    ∀ (img : ByteSeq) (bs : BootSector) (buf : ByteSeq),
      0 < bs.bytesPerSector →
      ReadRootDirectory img bs = some buf →
      (∀ i, i < bs.dirEntryCount → 32 * i + 32 ≤ buf.size) ∧
      (bs.dirEntryCount = 0 → ∀ q, FindFile bs buf q = none) := by
  intro img bs buf hb h
  unfold ReadRootDirectory at h
  have h2 := (readDiskSectors_eq_some h).1
  constructor
  · intro i hi
    have h1 := rootDirSizeBytes_le bs hb
    unfold rootDirSizeBytes at h1
    rw [h2]
    omega
  · intro hdec q
    unfold FindFile FindFileIdx
    rw [hdec]
    rfl

/-- Witness for C10 at a concrete input: the tiny geometry's one 32-byte
entry fits in the buffer loaded from the 32-byte image. -/
theorem claim_C10_witness :
    32 * 0 + 32 ≤ rootBufTiny.size :=
  (claim_C10_lookup_within_buffer zeroBuf32 bsTiny rootBufTiny
    (by decide) rfl).1 0 (by decide)

/-- Counterexample to claim C2 as stated: a decoded boot sector with
`bytesPerSector = 512 > 0` whose root-directory LBA is
`reservedSectors + sectorsPerFat * fatCount = 256`.  The claim puts the
read at byte offset `256 * 512 = 131072`, where `farMarkImage` holds 9;
the load succeeds but actually reads from offset 0 (the `uint8_t` lba
parameter truncates 256 to 0), so the first loaded byte is 7. -/
theorem claim_C2_counterexample :
    0 < bsRoot256.bytesPerSector ∧
    rootDirLba bsRoot256 = 256 ∧
    (ReadRootDirectory farMarkImage bsRoot256).map (fun b => b.data 0) =
      some 7 ∧
    byteAt farMarkImage (rootDirLba bsRoot256 * bsRoot256.bytesPerSector) =
      9 := by decide

/-- Claim C2 (amended): for every decoded boot sector with
`bytesPerSector > 0`, `ReadRootDirectory` reads starting at LBA
`(reservedSectors + sectorsPerFat * fatCount) mod 256` — the mod-256
truncation is forced by the `uint8_t` lba parameter, and is the identity
whenever the sum is below 256 — into a buffer of
`sectors * bytesPerSector` bytes; its computed sector count satisfies
`sectors * bytesPerSector ≥ 32 * dirEntryCount` and is the smallest such
value; in particular 512-byte sectors give 14 sectors for 224 entries and
15 sectors for 225 entries. -/
theorem claim_C2_root_directory_placement :
    ∀ (bs : BootSector) (img : ByteSeq), 0 < bs.bytesPerSector →
      (∀ buf, ReadRootDirectory img bs = some buf →
        buf.size = rootDirSectors bs * bs.bytesPerSector ∧
        ∀ i, buf.data i =
          byteAt img (rootDirLba bs % 256 * bs.bytesPerSector + i)) ∧
      rootDirSizeBytes bs ≤ rootDirSectors bs * bs.bytesPerSector ∧
      (∀ s, rootDirSizeBytes bs ≤ s * bs.bytesPerSector →
        rootDirSectors bs ≤ s) ∧
      rootDirSectors bs224 = 14 ∧ rootDirSectors bs225 = 15 := by
  intro bs img hb
  refine ⟨?_, rootDirSizeBytes_le bs hb,
    fun s hs => rootDirSectors_min bs hb s hs, by decide, by decide⟩
  intro buf h
  unfold ReadRootDirectory at h
  have h2 := readDiskSectors_eq_some h
  refine ⟨h2.1, fun i => ?_⟩
  rw [h2.2 i]
  rfl

/-- Witness for C2 (amended) at concrete geometries: the two spec
instances of the ceiling arithmetic. -/
theorem claim_C2_witness :
    rootDirSectors bs224 = 14 ∧ rootDirSectors bs225 = 15 :=
  (claim_C2_root_directory_placement bs224 zero62 (by decide)).2.2.2

/-- Counterexample to claim C4 as stated: calling `ReadDiskSectors` with
`lba = 256` and `count = 1` under 512-byte sectors succeeds, but the
byte it reads is the image's byte 0 (value 7), not the byte at offset
`lba * bytesPerSector = 131072` (value 9): the `uint8_t` lba parameter
truncates 256 to 0, so the contract does not hold for every non-negative
integer lba. -/
theorem claim_C4_counterexample :
    0 < bs512.bytesPerSector ∧
    (ReadDiskSectors farMarkImage bs512 256 1).map (fun b => b.data 0) =
      some 7 ∧
    byteAt farMarkImage (256 * bs512.bytesPerSector) = 9 := by decide

/-- Claim C4 (amended): for every `lba < 256` (the range of the `uint8_t`
parameter — larger arguments truncate mod 256), positive `count` and
positive `bytesPerSector`, `ReadDiskSectors` seeks to byte offset
`lba * bytesPerSector` and succeeds iff `count * bytesPerSector` bytes
are available there; on success the destination buffer holds exactly
those `count * bytesPerSector` image bytes. -/
theorem claim_C4_sector_io :
    ∀ (img : ByteSeq) (bs : BootSector) (lba count : Nat),
      lba < 256 → 0 < bs.bytesPerSector → 0 < count →
      ((ReadDiskSectors img bs lba count).isSome = true ↔
        lba * bs.bytesPerSector + count * bs.bytesPerSector ≤ img.size) ∧
      ∀ buf, ReadDiskSectors img bs lba count = some buf →
        buf.size = count * bs.bytesPerSector ∧
        ∀ i, buf.data i = byteAt img (lba * bs.bytesPerSector + i) := by
  intro img bs lba count hl hb hc
  have hoff : diskSeekOffset bs lba = lba * bs.bytesPerSector := by
    unfold diskSeekOffset
    rw [Nat.mod_eq_of_lt hl]
  constructor
  · rw [← hoff]
    exact readDiskSectors_isSome_iff hb hc
  · intro buf h
    have h2 := readDiskSectors_eq_some h
    rw [hoff] at h2
    exact h2

/-- Witness for C4 (amended) at a concrete input: one 1-byte sector read
at lba 0 from the 300-byte image succeeds. -/
theorem claim_C4_witness :
    (ReadDiskSectors nearMarkImage bsFat256 0 1).isSome = true :=
  (claim_C4_sector_io nearMarkImage bsFat256 0 1
    (by decide) (by decide) (by decide)).1.mpr (by decide)

/-- Counterexample to claim C6 as stated: a decoded boot sector with
`reservedSectors = 256` and one-byte sectors.  The FAT load succeeds,
but the byte it reads is the image's byte 0 (value 7), not the byte at
`reservedSectors * bytesPerSector = 256` (value 9): `reservedSectors`
truncates to the `uint8_t` lba parameter, so the read does not start at
LBA `reservedSectors` for every decoded boot sector. -/
theorem claim_C6_counterexample :
    (ReadFAT nearMarkImage bsFat256).map (fun b => b.data 0) = some 7 ∧
    byteAt nearMarkImage
      (bsFat256.reservedSectors * bsFat256.bytesPerSector) = 9 := by decide

/-- Claim C6 (amended): for every decoded boot sector with
`bytesPerSector > 0`, a successful `ReadFAT` yields a buffer of exactly
`sectorsPerFat * bytesPerSector` bytes (hence a multiple of
`bytesPerSector`) holding the image bytes from byte offset
`(reservedSectors mod 256) * bytesPerSector` on — the mod-256 truncation
is forced by the `uint8_t` lba parameter and is the identity for
`reservedSectors < 256`; and `ReadFAT` succeeds whenever the image holds
`(reservedSectors mod 256) + sectorsPerFat` whole sectors (in particular
on any well-formed untruncated image). -/
theorem claim_C6_fat_loader :
    ∀ (img : ByteSeq) (bs : BootSector), 0 < bs.bytesPerSector →
      (∀ buf, ReadFAT img bs = some buf →
        buf.size = bs.sectorsPerFat * bs.bytesPerSector ∧
        bs.bytesPerSector ∣ buf.size ∧
        ∀ i, buf.data i =
          byteAt img (bs.reservedSectors % 256 * bs.bytesPerSector + i)) ∧
      ((bs.reservedSectors % 256 + bs.sectorsPerFat) * bs.bytesPerSector ≤
          img.size →
        (ReadFAT img bs).isSome = true) := by
  intro img bs hb
  constructor
  · intro buf h
    unfold ReadFAT at h
    have h2 := readDiskSectors_eq_some h
    refine ⟨h2.1, ?_, fun i => by rw [h2.2 i]; rfl⟩
    rw [h2.1]
    exact dvd_mul_left _ _
  · intro hsz
    unfold ReadFAT
    apply readDiskSectors_isSome_of hb
    unfold diskSeekOffset
    calc bs.reservedSectors % 256 * bs.bytesPerSector +
          bs.sectorsPerFat * bs.bytesPerSector
        = (bs.reservedSectors % 256 + bs.sectorsPerFat) *
            bs.bytesPerSector := by ring
      _ ≤ img.size := hsz

/-- Witness for C6 (amended) at a concrete input: loading the one-sector
FAT of `bsFat256` from the 300-byte image succeeds. -/
theorem claim_C6_witness :
    (ReadFAT nearMarkImage bsFat256).isSome = true :=
  (claim_C6_fat_loader nearMarkImage bsFat256 (by decide)).2 (by decide)

/-- Counterexample to claim C7 as stated: `truncImage256` (100 bytes)
decodes to `reservedSectors = 256`, `bytesPerSector = 1`,
`sectorsPerFat = 1`, so fewer than `sectorsPerFat * bytesPerSector`
bytes remain after the reserved region (none do), yet `ReadFAT`
succeeds — the truncated `uint8_t` lba makes it read from offset 0 —
and the pipeline goes on to load the root directory and run the lookup
(all four stages execute and the run ends in `notFound`). -/
theorem claim_C7_counterexample :
    ReadBootSector truncImage256 = some bsFat256 ∧
    truncImage256.size -
        bsFat256.reservedSectors * bsFat256.bytesPerSector <
      bsFat256.sectorsPerFat * bsFat256.bytesPerSector ∧
    (ReadFAT truncImage256 bsFat256).isSome = true ∧
    mainRun truncImage256 fileTxtName = MainResult.notFound ∧
    mainStages truncImage256 fileTxtName =
      [Stage.boot, Stage.fat, Stage.rootDir, Stage.lookup] := by decide

/-- Claim C7 (amended): for every image whose decoded boot sector has
`reservedSectors < 256` (so the `uint8_t` lba truncation is the
identity) and fewer than `sectorsPerFat * bytesPerSector` bytes
available after the reserved region, `ReadFAT` fails, `main` exits with
the FAT-stage error, and neither the root-directory load nor the lookup
runs. -/
theorem claim_C7_truncated_fat :
    ∀ (img : ByteSeq) (bs : BootSector) (q : List Nat),
      ReadBootSector img = some bs →
      bs.reservedSectors < 256 →
      img.size - bs.reservedSectors * bs.bytesPerSector <
        bs.sectorsPerFat * bs.bytesPerSector →
      ReadFAT img bs = none ∧
      mainRun img q = MainResult.fatError ∧
      mainStages img q = [Stage.boot, Stage.fat] := by
  intro img bs q hboot hres htr
  have hpos : 0 < bs.sectorsPerFat * bs.bytesPerSector := by omega
  have hb : 0 < bs.bytesPerSector := by
    rcases Nat.eq_zero_or_pos bs.bytesPerSector with h | h
    · rw [h, Nat.mul_zero] at hpos
      omega
    · exact h
  have hsp : 0 < bs.sectorsPerFat := by
    rcases Nat.eq_zero_or_pos bs.sectorsPerFat with h | h
    · rw [h, Nat.zero_mul] at hpos
      omega
    · exact h
  have hfat : ReadFAT img bs = none := by
    rcases hm : ReadFAT img bs with _ | buf
    · rfl
    · exfalso
      have hs : (ReadFAT img bs).isSome = true := by rw [hm]; rfl
      unfold ReadFAT at hs
      rw [readDiskSectors_isSome_iff hb hsp] at hs
      unfold diskSeekOffset at hs
      rw [Nat.mod_eq_of_lt hres] at hs
      omega
  refine ⟨hfat, ?_, ?_⟩
  · unfold mainRun ReadBootSectorSt ReadFATSt
    rw [hboot]
    simp [hfat]
  · unfold mainStages ReadBootSectorSt ReadFATSt
    rw [hboot]
    simp [hfat]

/-- Witness for C7 (amended) at a concrete input: `truncImageSmall` (100
bytes, `reservedSectors = 1 < 256`, 200 FAT sectors needed but only 99
bytes left) makes the run end at the FAT stage. -/
theorem claim_C7_witness :
    mainRun truncImageSmall fileTxtName = MainResult.fatError :=
  (claim_C7_truncated_fat truncImageSmall bsTruncSmall fileTxtName
    (by decide) (by decide) (by decide)).2.1

/-- Claim C8: boot-sector decode.  `ReadBootSector` reads exactly the
packed byte size of the boot-sector structure (62 bytes — the exact sum
of the field widths, with no implicit padding) from the start of the
image, succeeds iff at least that many bytes are available, decodes each
field at its fixed little-endian offset, and performs no field-level
validation: the all-zero 62-byte image decodes successfully with
`bytesPerSector = 0`. -/
theorem claim_C8_boot_sector_decode :
    ∀ img : ByteSeq,
      ((ReadBootSector img).isSome = true ↔ bootSectorByteSize ≤ img.size) ∧
      bootSectorByteSize =
        3 + 8 + 2 + 1 + 2 + 1 + 2 + 2 + 1 + 2 + 2 + 2 + 4 + 4 +
          1 + 1 + 1 + 4 + 11 + 8 ∧
      (∀ bs, ReadBootSector img = some bs →
        bs.bootJumpInstruction = readBytes img 0 3 ∧
        bs.oemIdentifier = readBytes img 3 8 ∧
        bs.bytesPerSector = readLE img 11 2 ∧
        bs.sectorsPerCluster = readLE img 13 1 ∧
        bs.reservedSectors = readLE img 14 2 ∧
        bs.fatCount = readLE img 16 1 ∧
        bs.dirEntryCount = readLE img 17 2 ∧
        bs.totalSectors = readLE img 19 2 ∧
        bs.mediaDescriptorType = readLE img 21 1 ∧
        bs.sectorsPerFat = readLE img 22 2 ∧
        bs.sectorsPerTrack = readLE img 24 2 ∧
        bs.heads = readLE img 26 2 ∧
        bs.hiddenSectors = readLE img 28 4 ∧
        bs.largeSectorCount = readLE img 32 4 ∧
        bs.driveNumber = readLE img 36 1 ∧
        bs.reservedByte = readLE img 37 1 ∧
        bs.signature = readLE img 38 1 ∧
        bs.volumeID = readLE img 39 4 ∧
        bs.volumeLabel = readBytes img 43 11 ∧
        bs.systemID = readBytes img 54 8) ∧
      (∃ bs, ReadBootSector zero62 = some bs ∧ bs.bytesPerSector = 0) := by
  intro img
  refine ⟨?_, by decide, ?_, ⟨zeroBootSector, by decide, by decide⟩⟩
  · unfold ReadBootSector
    split_ifs with h
    · simp [h]
    · simp [h]
  · intro bs hbs
    unfold ReadBootSector at hbs
    split_ifs at hbs with h
    injection hbs with h2
    rw [← h2]
    exact ⟨rfl, rfl, rfl, rfl, rfl, rfl, rfl, rfl, rfl, rfl, rfl, rfl,
      rfl, rfl, rfl, rfl, rfl, rfl, rfl, rfl⟩

/-- Witness for C8 at a concrete input: the all-zero 62-byte image is
long enough, so its decode succeeds. -/
theorem claim_C8_witness :
    (ReadBootSector zero62).isSome = true :=
  (claim_C8_boot_sector_decode zero62).1.mpr (by decide)

set_option maxRecDepth 100000 in
/-- Claim C1: end-to-end pipeline on the concrete synthetic 1.44MB FAT12
image `testImage`.  The boot sector decodes with `bytesPerSector = 512`,
`reservedSectors = 1`, `fatCount = 2`, `sectorsPerFat = 9`,
`dirEntryCount = 224`; the FAT and root-directory loads succeed; the run
on query `"FILE    TXT"` executes all four stages and returns the entry
named `"FILE    TXT"` whose `size` field is 4096; and the run on
`"NOFILE  TXT"` over the same loaded root directory ends in `notFound`. -/
theorem claim_C1_end_to_end :
    ReadBootSector testImage = some testBootSector ∧
    testBootSector.bytesPerSector = 512 ∧
    testBootSector.reservedSectors = 1 ∧
    testBootSector.fatCount = 2 ∧
    testBootSector.sectorsPerFat = 9 ∧
    testBootSector.dirEntryCount = 224 ∧
    (ReadFAT testImage testBootSector).isSome = true ∧
    (ReadRootDirectory testImage testBootSector).isSome = true ∧
    mainRun testImage fileTxtName = MainResult.ok fileEntry ∧
    fileEntry.name = fileTxtName ∧
    fileEntry.size = 4096 ∧
    mainRun testImage noFileName = MainResult.notFound ∧
    mainStages testImage fileTxtName =
      [Stage.boot, Stage.fat, Stage.rootDir, Stage.lookup] := by decide

end Fat12
